import Mathlib

/-!
Shallow embedding of the ASD screening app (src/app.py).

The app is a three-screen Streamlit wizard held together by
`st.session_state`: screen 1 (step 1) binds the demographic widgets,
screen 2 (step 2) binds the ten radio answers A1..A10, and screen 3
(step 3) encodes a 19-element feature vector, scores it with an
externally loaded model, derives a severity band and a guidance string,
and offers a restart that clears the whole session.

Modelling decisions, each tied to a line of src/app.py:
* `SessionState` mirrors `st.session_state`: every widget-bound entry is
  an `Option` (absent until its screen has run); `step` is an `Int`
  initialised to 1 (lines 60-61).
* Python's builtin `hash` on strings is salted per process
  (PYTHONHASHSEED), so every function that calls `hash` takes the run's
  string-hash as an explicit parameter `pyhash : String → Int`.
* Reading a missing `st.session_state` key raises `KeyError`; lookups are
  `Except PyErr` with `PyErr.keyError` carrying the key.  The encoder
  (lines 135-153) performs its lookups in source order.
* Python's `%` on a positive modulus agrees with `Int.emod`, Lean's `%`.
* The external classifier (line 55) is an opaque `Model` record with
  `predict` and `predict_proba`; `predict_proba` stands for the class-1
  column `predict_proba(v)[0][1]`.
* `random.choice` over the three affirming strings (lines 184-188) is
  modelled by an index `i : Fin 3` drawn by the runtime; uniformity of
  `random.choice` makes that index uniform.
-/

namespace ASDScreening

/-- The demographic values offered by the screen-1 widgets (lines 79-93).
All categorical widgets yield strings; `age` comes from an integer
slider.  No field is validated beyond what the widgets offer, so the
type places no domain restriction on the strings. -/
structure Demographics where
  child_name : String
  age : Int
  gender : String
  ethnicity : String
  jaundice : String
  family_history : String
  used_app_before : String
  relation : String
  country : String
  age_desc : String

/-- The Streamlit session state: `step` plus one optional entry per
widget-bound key.  `responses i` is the entry for key `A(i+1)`
(lines 119-122). -/
structure SessionState where
  step : Int
  child_name : Option String := none
  age : Option Int := none
  gender : Option String := none
  ethnicity : Option String := none
  jaundice : Option String := none
  family_history : Option String := none
  used_app_before : Option String := none
  relation : Option String := none
  country : Option String := none
  age_desc : Option String := none
  responses : Fin 10 → Option Int := fun _ => none

/-- The freshly initialised session: `step = 1`, nothing bound
(lines 60-61). -/
def initState : SessionState := { step := 1 }

/-- Rendering screen 1 assigns every demographic widget's value into the
session (lines 79-93). -/
def setDemographics (s : SessionState) (d : Demographics) : SessionState :=
  { s with
    child_name := some d.child_name
    age := some d.age
    gender := some d.gender
    ethnicity := some d.ethnicity
    jaundice := some d.jaundice
    family_history := some d.family_history
    used_app_before := some d.used_app_before
    relation := some d.relation
    country := some d.country
    age_desc := some d.age_desc }

/-- The rerun in which the Next button is clicked: screen 1 binds the
widget values, then `st.session_state.step = 2` (lines 95-96). -/
def clickNext (s : SessionState) (d : Demographics) : SessionState :=
  { setDemographics s d with step := 2 }

/-- Rendering screen 2 assigns every radio's value (0 or 1 in the UI,
any `Int` in the model) into keys A1..A10 (lines 119-122). -/
def setResponses (s : SessionState) (r : Fin 10 → Int) : SessionState :=
  { s with responses := fun i => some (r i) }

/-- The rerun in which the Get Result button is clicked: screen 2 binds
the ten radios, then `st.session_state.step = 3` (lines 124-125).
There is no guard of any kind before the step assignment. -/
def clickGetResult (s : SessionState) (r : Fin 10 → Int) : SessionState :=
  { setResponses s r with step := 3 }

/-- The Restart button: `st.session_state.clear()` then
`st.session_state.step = 1` (lines 244-246), i.e. exactly the fresh
session. -/
def clickRestart (_s : SessionState) : SessionState := initState

/-- Python exceptions the embedded code can raise: only `KeyError`, from
reading an absent session key. -/
inductive PyErr where
  | keyError (key : String)
deriving DecidableEq

/-- Reading `st.session_state[key]` (or the attribute form): the value
if bound, `KeyError` otherwise. -/
def getKey {α : Type} (o : Option α) (key : String) : Except PyErr α :=
  match o with
  | some v => .ok v
  | none => .error (.keyError key)

/-- The feature encoding of lines 135-153, lookups in source order:
the five 0/1 recodes of lines 135-139 first, then the values consumed
by the `np.array` expression (A1..A10, ethnicity, age, relation,
country).  The result is the inner row of the 1×19 array. -/
def encode (pyhash : String → Int) (s : SessionState) :
    Except PyErr (List Int) := do
  let gender_s ← getKey s.gender "gender"
  let gender : Int := if gender_s = "Male" then 1 else 0
  let jaundice_s ← getKey s.jaundice "jaundice"
  let jaundice : Int := if jaundice_s = "Yes" then 1 else 0
  let family_s ← getKey s.family_history "family_history"
  let family : Int := if family_s = "Yes" then 1 else 0
  let used_s ← getKey s.used_app_before "used_app_before"
  let used : Int := if used_s = "Yes" then 1 else 0
  let age_desc_s ← getKey s.age_desc "age_desc"
  let age_desc : Int := if age_desc_s = "18 and more" then 1 else 0
  let a1 ← getKey (s.responses 0) "A1"
  let a2 ← getKey (s.responses 1) "A2"
  let a3 ← getKey (s.responses 2) "A3"
  let a4 ← getKey (s.responses 3) "A4"
  let a5 ← getKey (s.responses 4) "A5"
  let a6 ← getKey (s.responses 5) "A6"
  let a7 ← getKey (s.responses 6) "A7"
  let a8 ← getKey (s.responses 7) "A8"
  let a9 ← getKey (s.responses 8) "A9"
  let a10 ← getKey (s.responses 9) "A10"
  let ethnicity_s ← getKey s.ethnicity "ethnicity"
  let age ← getKey s.age "age"
  let relation_s ← getKey s.relation "relation"
  let country_s ← getKey s.country "country"
  pure [a1, a2, a3, a4, a5, a6, a7, a8, a9, a10,
    gender, pyhash ethnicity_s % 100, jaundice, family, used,
    age, age_desc, pyhash relation_s % 100, pyhash country_s % 100]

/-- The expected encoder output for demographics `d`, responses `r` and
run hash `pyhash`: §4.2's fixed order, read off lines 141-153. -/
def featureRow (pyhash : String → Int) (d : Demographics)
    (r : Fin 10 → Int) : List Int :=
  [r 0, r 1, r 2, r 3, r 4, r 5, r 6, r 7, r 8, r 9,
    (if d.gender = "Male" then 1 else 0),
    pyhash d.ethnicity % 100,
    (if d.jaundice = "Yes" then 1 else 0),
    (if d.family_history = "Yes" then 1 else 0),
    (if d.used_app_before = "Yes" then 1 else 0),
    d.age,
    (if d.age_desc = "18 and more" then 1 else 0),
    pyhash d.relation % 100,
    pyhash d.country % 100]

/-- On a session produced by completing both screens, the encoder
succeeds and returns exactly the fixed-order row. -/
lemma encode_complete (pyhash : String → Int) (s : SessionState)
    (d : Demographics) (r : Fin 10 → Int) :
    encode pyhash (clickGetResult (clickNext s d) r) =
      .ok (featureRow pyhash d r) := rfl

/-- The severity banding of lines 158-162: a chained conditional on the
0-100 probability.  Comparisons against the integer thresholds are
exact, so the float is modelled as a rational. -/
def severity (probability : ℚ) : String :=
  if probability < 35 then "Low Risk"
  else if probability < 65 then "Moderate Risk"
  else "High Risk"

/-- The fixed positive-label guidance string (lines 175-179; Python
concatenates the three adjacent literals). -/
def interventionGuidance : String :=
  "Early intervention is strongly recommended. Speech therapy, occupational therapy, behavioral therapy and professional consultation can improve outcomes."

/-- The three affirming strings offered to `random.choice`
(lines 184-188). -/
def affirmingMessages : List String :=
  ["Different, not less.", "Neurodiversity is a strength.", "Awareness creates acceptance."]

/-- The guidance branch of lines 171-188: the fixed intervention string
when the prediction is 1, otherwise `random.choice` over the three
affirming strings, with the runtime's uniform draw passed in as the
index `i`. -/
def guidance (prediction : Int) (i : Fin 3) : String :=
  if prediction = 1 then interventionGuidance
  else affirmingMessages.get ⟨i.val, i.isLt⟩

/-- The opaque classifier loaded on line 55.  `predict v` is
`model.predict([[v]])[0]`; `predict_proba v` is the class-1 probability
`model.predict_proba([[v]])[0][1]`. -/
structure Model where
  predict : List Int → Int
  predict_proba : List Int → ℚ

/-- What screen 3 shows: probability (×100 scale), predicted label,
severity band and guidance string (lines 155-190). -/
structure ResultRecord where
  probability : ℚ
  label : Int
  severity : String
  guidance : String
deriving DecidableEq

/-- One rendering of screen 3 (lines 134-190): encode, score, band,
pick guidance.  `i` is the runtime's random draw for this rendering.
Nothing is written back into the session: the record is recomputed on
every rerun of the step-3 branch. -/
def computeResult (M : Model) (pyhash : String → Int) (i : Fin 3)
    (s : SessionState) : Except PyErr ResultRecord := do
  let input_features ← encode pyhash s
  let prediction := M.predict input_features
  let probability := M.predict_proba input_features * 100
  pure ⟨probability, prediction, severity probability, guidance prediction i⟩

/-- One rerun of the whole script at session `s`: the step-3 branch
(and only it) computes a result (lines 76, 103, 132). -/
def renderStep (M : Model) (pyhash : String → Int) (i : Fin 3)
    (s : SessionState) : Option (Except PyErr ResultRecord) :=
  if s.step = 3 then some (computeResult M pyhash i s) else none

/-- One user interaction = one Streamlit rerun of the script.  The
branch taken is fixed by `step` (lines 76, 103, 132); within it the
widgets rebind their keys and at most one button fires.  Screen-1 reruns
bind the demographics (Next clicked or not); screen-2 reruns bind
A1..A10 (Get Result clicked or not); screen-3 reruns recompute the
result (no state change) and Restart clears the session. -/
inductive StepRel : SessionState → SessionState → Prop where
  | intake_view (s : SessionState) (d : Demographics) (h : s.step = 1) :
      StepRel s (setDemographics s d)
  | intake_next (s : SessionState) (d : Demographics) (h : s.step = 1) :
      StepRel s (clickNext s d)
  | quest_view (s : SessionState) (r : Fin 10 → Int) (h : s.step = 2) :
      StepRel s (setResponses s r)
  | quest_submit (s : SessionState) (r : Fin 10 → Int) (h : s.step = 2) :
      StepRel s (clickGetResult s r)
  | result_view (s : SessionState) (h : s.step = 3) : StepRel s s
  | result_restart (s : SessionState) (h : s.step = 3) :
      StepRel s (clickRestart s)

/-- Sessions reachable from a fresh session by user interactions. -/
def Reachable (s : SessionState) : Prop :=
  Relation.ReflTransGen StepRel initState s

/-- Everything the encoder reads is bound in `s`. -/
def EncodeReady (s : SessionState) : Prop :=
  s.gender.isSome ∧ s.jaundice.isSome ∧ s.family_history.isSome ∧
    s.used_app_before.isSome ∧ s.age_desc.isSome ∧
    (∀ i : Fin 10, (s.responses i).isSome) ∧
    s.ethnicity.isSome ∧ s.age.isSome ∧ s.relation.isSome ∧
    s.country.isSome

/-- The reachability invariant: past screen 1 the demographics are
bound, and at screen 3 the responses are bound too. -/
def Inv (s : SessionState) : Prop :=
  (s.step = 2 → s.gender.isSome ∧ s.jaundice.isSome ∧
    s.family_history.isSome ∧ s.used_app_before.isSome ∧
    s.age_desc.isSome ∧ s.ethnicity.isSome ∧ s.age.isSome ∧
    s.relation.isSome ∧ s.country.isSome) ∧
  (s.step = 3 → EncodeReady s)

lemma inv_init : Inv initState := by
  constructor <;> intro h <;> simp [initState] at h

lemma inv_step {s s' : SessionState} (hs : Inv s) (h : StepRel s s') :
    Inv s' := by
  cases h with
  | intake_view d h =>
      constructor <;> intro hstep <;>
        simp [setDemographics] at hstep <;> omega
  | intake_next d h =>
      constructor <;> intro hstep
      · simp [clickNext, setDemographics]
      · simp [clickNext] at hstep
  | quest_view r h =>
      obtain ⟨h2, _⟩ := hs
      constructor <;> intro hstep
      · simpa [setResponses] using h2 (by simpa [setResponses] using hstep)
      · simp [setResponses] at hstep; omega
  | quest_submit r h =>
      obtain ⟨h2, _⟩ := hs
      have hd := h2 h
      constructor <;> intro hstep
      · simp [clickGetResult, setResponses] at hstep
      · simp only [EncodeReady, clickGetResult, setResponses]
        exact ⟨hd.1, hd.2.1, hd.2.2.1, hd.2.2.2.1, hd.2.2.2.2.1,
          fun i => rfl, hd.2.2.2.2.2.1, hd.2.2.2.2.2.2.1,
          hd.2.2.2.2.2.2.2.1, hd.2.2.2.2.2.2.2.2⟩
  | result_view h => exact hs
  | result_restart h =>
      constructor <;> intro hstep <;>
        simp [clickRestart, initState] at hstep

lemma inv_reachable {s : SessionState} (h : Reachable s) : Inv s := by
  induction h with
  | refl => exact inv_init
  | tail _ hstep ih => exact inv_step ih hstep

/-- When everything the encoder reads is bound, encoding succeeds. -/
lemma encode_ready_ok (pyhash : String → Int) {s : SessionState}
    (h : EncodeReady s) : ∃ v, encode pyhash s = .ok v := by
  obtain ⟨hg, hj, hf, hu, had, hr, he, ha, hrel, hc⟩ := h
  obtain ⟨g, hg⟩ := Option.isSome_iff_exists.mp hg
  obtain ⟨j, hj⟩ := Option.isSome_iff_exists.mp hj
  obtain ⟨f, hf⟩ := Option.isSome_iff_exists.mp hf
  obtain ⟨u, hu⟩ := Option.isSome_iff_exists.mp hu
  obtain ⟨ad, had⟩ := Option.isSome_iff_exists.mp had
  obtain ⟨e, he⟩ := Option.isSome_iff_exists.mp he
  obtain ⟨a, ha⟩ := Option.isSome_iff_exists.mp ha
  obtain ⟨rel, hrel⟩ := Option.isSome_iff_exists.mp hrel
  obtain ⟨c, hc⟩ := Option.isSome_iff_exists.mp hc
  obtain ⟨a1, h1⟩ := Option.isSome_iff_exists.mp (hr 0)
  obtain ⟨a2, h2⟩ := Option.isSome_iff_exists.mp (hr 1)
  obtain ⟨a3, h3⟩ := Option.isSome_iff_exists.mp (hr 2)
  obtain ⟨a4, h4⟩ := Option.isSome_iff_exists.mp (hr 3)
  obtain ⟨a5, h5⟩ := Option.isSome_iff_exists.mp (hr 4)
  obtain ⟨a6, h6⟩ := Option.isSome_iff_exists.mp (hr 5)
  obtain ⟨a7, h7⟩ := Option.isSome_iff_exists.mp (hr 6)
  obtain ⟨a8, h8⟩ := Option.isSome_iff_exists.mp (hr 7)
  obtain ⟨a9, h9⟩ := Option.isSome_iff_exists.mp (hr 8)
  obtain ⟨a10, h10⟩ := Option.isSome_iff_exists.mp (hr 9)
  refine ⟨[a1, a2, a3, a4, a5, a6, a7, a8, a9, a10,
    (if g = "Male" then 1 else 0), pyhash e % 100,
    (if j = "Yes" then 1 else 0), (if f = "Yes" then 1 else 0),
    (if u = "Yes" then 1 else 0), a,
    (if ad = "18 and more" then 1 else 0),
    pyhash rel % 100, pyhash c % 100], ?_⟩
  simp only [encode, getKey, hg, hj, hf, hu, had, he, ha, hrel,
    hc, h1, h2, h3, h4, h5, h6, h7, h8, h9, h10]
  rfl

instance {ε α : Type} [DecidableEq ε] [DecidableEq α] :
    DecidableEq (Except ε α)
  | .error e, .error f => decidable_of_iff (e = f) (by simp)
  | .error _, .ok _ => isFalse (by simp)
  | .ok _, .error _ => isFalse (by simp)
  | .ok a, .ok b => decidable_of_iff (a = b) (by simp)

lemma getKey_eq_ok {α : Type} {o : Option α} {k : String} {a : α} :
    getKey o k = .ok a ↔ o = some a := by
  cases o <;> simp [getKey]

lemma bind_eq_ok {α β : Type} {x : Except PyErr α}
    {f : α → Except PyErr β} {b : β} :
    (x >>= f) = .ok b ↔ ∃ a, x = .ok a ∧ f a = .ok b := by
  cases x <;> simp [Bind.bind, Except.bind]

/-- If encoding succeeded, every key it reads was bound. -/
lemma encode_ok_ready {pyhash : String → Int} {s : SessionState}
    {v : List Int} (h : encode pyhash s = .ok v) : EncodeReady s := by
  unfold encode at h
  simp only [bind_eq_ok, getKey_eq_ok] at h
  obtain ⟨g, hg, j, hj, f, hf, u, hu, ad, had, a1, h1, a2, h2, a3, h3,
    a4, h4, a5, h5, a6, h6, a7, h7, a8, h8, a9, h9, a10, h10,
    e, he, a, ha, rel, hrel, c, hc, -⟩ := h
  refine ⟨by simp [hg], by simp [hj], by simp [hf], by simp [hu],
    by simp [had], fun i => ?_, by simp [he], by simp [ha],
    by simp [hrel], by simp [hc]⟩
  fin_cases i <;>
    simp [h1, h2, h3, h4, h5, h6, h7, h8, h9, h10]

lemma emod100_range (n : Int) : 0 ≤ n % 100 ∧ n % 100 ≤ 99 :=
  ⟨Int.emod_nonneg n (by norm_num), by
    have := Int.emod_lt_of_pos n (show (0:Int) < 100 by norm_num)
    omega⟩

/-- The demographics of the spec's end-to-end scenario (§8). -/
def sam : Demographics :=
  ⟨"Sam", 25, "Male", "Asian", "No", "No", "No", "Self", "India", "18 and more"⟩

/-- A demographics record whose every categorical field lies outside
the domain its widget offers. -/
def banana : Demographics :=
  ⟨"X", 5, "Banana", "Banana", "Banana", "Banana", "Banana", "Banana",
    "Banana", "Banana"⟩

/-- A stub classifier: always label 0, class-1 probability 1/2. -/
def stubModel : Model := ⟨fun _ => 0, fun _ => 1/2⟩

/-- C1: for every demographics record and complete set of ten
responses, the encoder succeeds and returns `featureRow`, a vector of
exactly 19 numbers in the fixed order of §4.2: the ten responses
verbatim, the Male indicator, the ethnicity hash surrogate, the three
Yes indicators, the raw age, the age-category indicator, and the
relation and country hash surrogates. -/
theorem encode_19_fixed_order (pyhash : String → Int) (s : SessionState)
    (d : Demographics) (r : Fin 10 → Int) :
    encode pyhash (clickGetResult (clickNext s d) r) =
        .ok (featureRow pyhash d r) ∧
      (featureRow pyhash d r).length = 19 :=
  ⟨encode_complete pyhash s d r, rfl⟩

/-- C2 counterexample: identical user inputs in two runs whose string
hashes differ — as Python's per-process salted string hashing permits —
encode to different vectors, so the vector is not stable across runs. -/
theorem encode_unstable_across_runs :
    encode (fun _ => 0)
        (clickGetResult (clickNext initState sam) (fun _ => 1)) ≠
      encode (fun _ => 1)
        (clickGetResult (clickNext initState sam) (fun _ => 1)) := by
  simp only [encode_complete, ne_eq, Except.ok.injEq]
  decide

/-- C2 (amended): encode is pure and deterministic within a run: its
output depends only on the demographics, the responses, and the run's
hash values of the three category strings, not on any other session
content; two runs agree exactly when their string hashes agree on those
three strings, which Python's hash salting does not guarantee. -/
theorem encode_deterministic (h1 h2 : String → Int)
    (s1 s2 : SessionState) (d : Demographics) (r : Fin 10 → Int)
    (he : h1 d.ethnicity = h2 d.ethnicity)
    (hrel : h1 d.relation = h2 d.relation)
    (hc : h1 d.country = h2 d.country) :
    encode h1 (clickGetResult (clickNext s1 d) r) =
      encode h2 (clickGetResult (clickNext s2 d) r) := by
  rw [encode_complete, encode_complete]
  simp [featureRow, he, hrel, hc]

/-- C2 witness: two distinct hash functions that agree on Sam's three
category strings encode Sam's inputs identically, from different
leftover sessions. -/
theorem encode_deterministic_witness :
    encode (fun _ => 0)
        (clickGetResult (clickNext initState sam) (fun _ => 1)) =
      encode (fun str => if str = "Sam" then 9 else 0)
        (clickGetResult (clickNext { initState with step := 5 } sam)
          (fun _ => 1)) :=
  encode_deterministic (fun _ => 0)
    (fun str => if str = "Sam" then 9 else 0) initState
    { initState with step := 5 } sam (fun _ => 1)
    (by decide) (by decide) (by decide)

/-- C3: severity is a total deterministic banding of the 0-100
probability: below 35 Low Risk, in [35,65) Moderate Risk, at and above
65 High Risk — lower bounds inclusive, upper bounds exclusive, top band
closed. -/
theorem severity_bands (p : ℚ) :
    (p < 35 → severity p = "Low Risk") ∧
    (35 ≤ p → p < 65 → severity p = "Moderate Risk") ∧
    (65 ≤ p → severity p = "High Risk") := by
  refine ⟨fun h => ?_, fun h1 h2 => ?_, fun h => ?_⟩
  · simp [severity, h]
  · have : ¬p < 35 := by linarith
    simp [severity, this, h2]
  · have l1 : ¬p < 35 := by linarith
    have l2 : ¬p < 65 := by linarith
    simp [severity, l1, l2]

/-- C3 witness: the six boundary probes of §8. -/
theorem severity_bands_witness :
    severity 0 = "Low Risk" ∧ severity (3499/100) = "Low Risk" ∧
    severity 35 = "Moderate Risk" ∧
    severity (6499/100) = "Moderate Risk" ∧
    severity 65 = "High Risk" ∧ severity 100 = "High Risk" :=
  ⟨(severity_bands 0).1 (by norm_num),
    (severity_bands (3499/100)).1 (by norm_num),
    (severity_bands 35).2.1 (by norm_num) (by norm_num),
    (severity_bands (6499/100)).2.1 (by norm_num) (by norm_num),
    (severity_bands 65).2.2 (by norm_num),
    (severity_bands 100).2.2 (by norm_num)⟩

/-- C4 counterexample: in the reachable Questionnaire session obtained
by completing only screen 1, no response is bound, yet Get Result is
not blocked and raises nothing: lines 124-125 set the step to 3
unconditionally, and no `IncompleteInputError` exists in the code. -/
theorem quest_submit_not_blocked :
    (clickNext initState sam).step = 2 ∧
    (clickNext initState sam).responses 0 = none ∧
    (clickGetResult (clickNext initState sam) (fun _ => 0)).step = 3 :=
  ⟨rfl, rfl, rfl⟩

/-- C4 (amended): the Get Result click always moves the session to the
Result step (rebinding the rendered radio values on the way); and the
encoder does fail — with Python's `KeyError`, the only failure the code
can produce, not a dedicated `IncompleteInputError` — on any session in
which one of the ten responses is unbound. -/
theorem getResult_unconditional_encode_keyError
    (pyhash : String → Int) (s s' : SessionState) (r : Fin 10 → Int)
    (i : Fin 10) (hnone : s'.responses i = none) :
    (clickGetResult s r).step = 3 ∧
      ∃ err : PyErr, encode pyhash s' = .error err := by
  refine ⟨rfl, ?_⟩
  cases hok : encode pyhash s' with
  | error e => exact ⟨e, rfl⟩
  | ok v =>
      have := (encode_ok_ready hok).2.2.2.2.2.1 i
      rw [hnone] at this
      simp at this

/-- C4 witness: with only screen 1 completed, response A1 is unbound
and encoding raises `KeyError "A1"`, while the Get Result click from a
fresh session still reaches step 3. -/
theorem getResult_unconditional_encode_keyError_witness :
    (clickGetResult initState (fun _ => 0)).step = 3 ∧
      encode (fun _ => 0) (clickNext initState sam) =
        .error (.keyError "A1") :=
  ⟨(getResult_unconditional_encode_keyError (fun _ => 0) initState
      (clickNext initState sam) (fun _ => 0) 0 rfl).1, rfl⟩

/-- C5: from any Result-stage session, Restart yields exactly the
fresh session: the step is back to Intake (1) and every stored key —
demographics and responses — is cleared, so nothing previously entered
is retrievable.  (The code never stores a result in the session, so no
result survives either.) -/
theorem restart_clears (s : SessionState) (h : s.step = 3) :
    clickRestart s = initState ∧
    (clickRestart s).step = 1 ∧
    (clickRestart s).child_name = none ∧ (clickRestart s).age = none ∧
    (clickRestart s).gender = none ∧
    (clickRestart s).ethnicity = none ∧
    (clickRestart s).jaundice = none ∧
    (clickRestart s).family_history = none ∧
    (clickRestart s).used_app_before = none ∧
    (clickRestart s).relation = none ∧
    (clickRestart s).country = none ∧
    (clickRestart s).age_desc = none ∧
    (∀ i : Fin 10, (clickRestart s).responses i = none) :=
  ⟨rfl, rfl, rfl, rfl, rfl, rfl, rfl, rfl, rfl, rfl, rfl, rfl,
    fun _ => rfl⟩

/-- C5 witness: restarting the fully populated Result-stage session of
the end-to-end scenario clears it. -/
theorem restart_clears_witness :
    clickRestart (clickGetResult (clickNext initState sam)
        (fun _ => 1)) = initState ∧
      (clickRestart (clickGetResult (clickNext initState sam)
        (fun _ => 1))).gender = none :=
  ⟨(restart_clears (clickGetResult (clickNext initState sam)
      (fun _ => 1)) rfl).1,
    (restart_clears (clickGetResult (clickNext initState sam)
      (fun _ => 1)) rfl).2.2.2.2.1⟩

/-- C6: every interaction either keeps the stage, advances it one step
along Intake→Questionnaire→Result, or resets the session from the
Result stage to the fresh Intake state; in particular no interaction
moves the stage backwards to the previous screen. -/
theorem step_monotone (s s' : SessionState) (h : StepRel s s') :
    s'.step = s.step ∨ (s.step = 1 ∧ s'.step = 2) ∨
      (s.step = 2 ∧ s'.step = 3) ∨ (s.step = 3 ∧ s' = initState) := by
  cases h with
  | intake_view d h => exact Or.inl rfl
  | intake_next d h => exact Or.inr (Or.inl ⟨h, rfl⟩)
  | quest_view r h => exact Or.inl rfl
  | quest_submit r h => exact Or.inr (Or.inr (Or.inl ⟨h, rfl⟩))
  | result_view h => exact Or.inl rfl
  | result_restart h => exact Or.inr (Or.inr (Or.inr ⟨h, rfl⟩))

/-- C6 witness: the interaction that clicks Next on the fresh session
satisfies the monotonicity disjunction. -/
theorem step_monotone_witness :
    (clickNext initState sam).step = initState.step ∨
      (initState.step = 1 ∧ (clickNext initState sam).step = 2) ∨
      (initState.step = 2 ∧ (clickNext initState sam).step = 3) ∨
      (initState.step = 3 ∧ clickNext initState sam = initState) :=
  step_monotone initState (clickNext initState sam)
    (StepRel.intake_next initState sam rfl)

/-- C7: a positive prediction always yields the single fixed
intervention string, whatever the random draw; a negative prediction
yields a member of the fixed three-message list, each message produced
by exactly one of the three equiprobable draws — so `random.choice`'s
uniform draw makes the message uniform — and the list holds exactly
three pairwise distinct strings. -/
theorem guidance_spec :
    (∀ i : Fin 3, guidance 1 i = interventionGuidance) ∧
    (∀ i : Fin 3, guidance 0 i ∈ affirmingMessages) ∧
    (∀ i j : Fin 3, guidance 0 i = guidance 0 j → i = j) ∧
    affirmingMessages.length = 3 ∧ affirmingMessages.Nodup := by
  decide

/-- C7 witness: sample draws — the fixed string for a positive label,
membership and injectivity for a negative one. -/
theorem guidance_spec_witness :
    guidance 1 0 = interventionGuidance ∧
      guidance 0 2 ∈ affirmingMessages ∧ (0 : Fin 3) = 0 :=
  ⟨guidance_spec.1 0, guidance_spec.2.1 2, guidance_spec.2.2.1 0 0 rfl⟩

/-- C8 counterexample: a session whose every categorical field holds
the out-of-domain value "Banana" is encoded silently and successfully —
the unknown gender becomes 0, the unknown strings are hashed — instead
of failing with any `InvalidCategoryError`; lines 135-153 contain no
domain check at all. -/
theorem encode_out_of_domain_ok :
    banana.gender ≠ "Male" ∧ banana.gender ≠ "Female" ∧
    encode (fun _ => 7)
        (clickGetResult (clickNext initState banana) (fun _ => 1)) =
      .ok [1, 1, 1, 1, 1, 1, 1, 1, 1, 1, 0, 7, 0, 0, 0, 5, 0, 7, 7] :=
  ⟨by decide, by decide, rfl⟩

/-- C8 (amended): the encoder performs no enum-domain validation and
can raise no `InvalidCategoryError` (no such error exists in the code):
whatever strings the demographics hold, encoding after the two screens
succeeds, and an out-of-domain gender is silently encoded as 0 in
slot 10 (likewise the Yes/No and age-category mismatches encode as 0,
and arbitrary ethnicity, relation and country strings are hashed). -/
theorem encode_no_category_validation (pyhash : String → Int)
    (s : SessionState) (d : Demographics) (r : Fin 10 → Int)
    (hg : d.gender ≠ "Male") :
    encode pyhash (clickGetResult (clickNext s d) r) =
        .ok (featureRow pyhash d r) ∧
      (featureRow pyhash d r).get? 10 = some 0 := by
  refine ⟨encode_complete pyhash s d r, ?_⟩
  simp [featureRow, hg]

/-- C8 witness: the all-"Banana" demographics are encoded without
error, with 0 in the gender slot. -/
theorem encode_no_category_validation_witness :
    encode (fun _ => 7)
        (clickGetResult (clickNext initState banana) (fun _ => 1)) =
        .ok (featureRow (fun _ => 7) banana (fun _ => 1)) ∧
      (featureRow (fun _ => 7) banana (fun _ => 1)).get? 10 = some 0 :=
  encode_no_category_validation (fun _ => 7) initState banana
    (fun _ => 1) (by decide)

/-- C9 counterexample: the result is not populated once and immutable:
screen 3 recomputes it on every rerun, and with a negative label the
guidance is freshly drawn each time, so two renderings of the identical
Result-stage session (draws 0 and 1) produce different result
records. -/
theorem result_not_immutable :
    computeResult stubModel (fun _ => 0) 0
        (clickGetResult (clickNext initState sam) (fun _ => 1)) ≠
      computeResult stubModel (fun _ => 0) 1
        (clickGetResult (clickNext initState sam) (fun _ => 1)) := by
  intro h
  have hg : ("Different, not less." : String) =
      "Neurodiversity is a strength." :=
    congrArg (fun x : Except PyErr ResultRecord =>
      match x with | .ok rec => rec.guidance | .error _ => "") h
  exact absurd hg (by decide)

/-- C9 (amended): a rerun computes a result exactly when the step is
Result — and on every reachable Result-stage session that computation
succeeds; between any two renderings of the same session the
probability, label and severity agree (they are deterministic in the
session and the run's hash), but the record is recomputed each time and
a negative label's guidance may differ between renderings. -/
theorem result_iff_result_stage (M : Model) (pyhash : String → Int)
    (i1 i2 : Fin 3) (s : SessionState) (hreach : Reachable s) :
    ((renderStep M pyhash i1 s).isSome ↔ s.step = 3) ∧
    (s.step = 3 → ∃ rec, computeResult M pyhash i1 s = .ok rec) ∧
    (∀ r1 r2 : ResultRecord, computeResult M pyhash i1 s = .ok r1 →
      computeResult M pyhash i2 s = .ok r2 →
      r1.probability = r2.probability ∧ r1.label = r2.label ∧
        r1.severity = r2.severity) := by
  refine ⟨?_, fun h3 => ?_, fun r1 r2 h1 h2 => ?_⟩
  · by_cases h : s.step = 3 <;> simp [renderStep, h]
  · obtain ⟨v, hv⟩ :=
      encode_ready_ok pyhash ((inv_reachable hreach).2 h3)
    exact ⟨_, by simp [computeResult, hv]; rfl⟩
  · cases hv : encode pyhash s with
    | error e => simp [computeResult, hv] at h1
    | ok v =>
        simp only [computeResult, hv, bind_eq_ok,
          Except.ok.injEq] at h1 h2
        obtain ⟨a, ha, h1⟩ := h1
        obtain ⟨b, hb, h2⟩ := h2
        subst ha
        subst hb
        have e1 := Except.ok.inj h1
        have e2 := Except.ok.inj h2
        rw [← e1, ← e2]
        exact ⟨rfl, rfl, rfl⟩

/-- C9 witness: on the reachable end-to-end Result session, a result
is rendered exactly because the step is 3. -/
theorem result_iff_result_stage_witness :
    (renderStep stubModel (fun _ => 0) 0
        (clickGetResult (clickNext initState sam)
          (fun _ => 1))).isSome ↔
      (clickGetResult (clickNext initState sam) (fun _ => 1)).step
        = 3 :=
  (result_iff_result_stage stubModel (fun _ => 0) 0 1
      (clickGetResult (clickNext initState sam) (fun _ => 1))
      (Relation.ReflTransGen.tail
        (Relation.ReflTransGen.tail Relation.ReflTransGen.refl
          (StepRel.intake_next initState sam rfl))
        (StepRel.quest_submit (clickNext initState sam)
          (fun _ => 1) rfl))).1

/-- C10: the three hash-surrogate slots of the feature row — indices
11 (ethnicity), 17 (relation) and 18 (country) — always lie in [0,99]:
Python's `%` on the positive modulus 100 (Lean's `Int.emod`) is
non-negative and below 100 even when the run's hash is negative. -/
theorem surrogates_in_range (pyhash : String → Int) (s : SessionState)
    (d : Demographics) (r : Fin 10 → Int) :
    encode pyhash (clickGetResult (clickNext s d) r) =
        .ok (featureRow pyhash d r) ∧
    (featureRow pyhash d r).get? 11 =
        some (pyhash d.ethnicity % 100) ∧
    (featureRow pyhash d r).get? 17 =
        some (pyhash d.relation % 100) ∧
    (featureRow pyhash d r).get? 18 =
        some (pyhash d.country % 100) ∧
    (0 ≤ pyhash d.ethnicity % 100 ∧ pyhash d.ethnicity % 100 ≤ 99) ∧
    (0 ≤ pyhash d.relation % 100 ∧ pyhash d.relation % 100 ≤ 99) ∧
    (0 ≤ pyhash d.country % 100 ∧ pyhash d.country % 100 ≤ 99) :=
  ⟨encode_complete pyhash s d r, rfl, rfl, rfl,
    emod100_range _, emod100_range _, emod100_range _⟩

end ASDScreening
